import Mathlib

/-!
Verification development for the aish pseudo-terminal session multiplexer.

The C sources (aish.c, terminal.c, chat.c, prompt.c) are shallowly embedded:
every C function relevant to the specification claims becomes a pure Lean
function, with the terminal configuration, the process-local state and the
byte traffic on each channel (child pty master, stdout, stderr) made explicit.
Environment nondeterminism (select results, read results, signal arrival,
API replies) is supplied as explicit event/oracle parameters.
-/

namespace Aish

/-- Input modes, from terminal.h: MODE_BASH is the spec's PassThrough,
MODE_CHAT is the spec's Assisted mode. -/
inductive InputMode where
  | MODE_BASH
  | MODE_CHAT
deriving DecidableEq, Repr

/-- Flip between the two input modes (the toggle in terminal_process_key). -/
def InputMode.flip : InputMode → InputMode
  | .MODE_BASH => .MODE_CHAT
  | .MODE_CHAT => .MODE_BASH

/-- The terminal line-discipline configuration (struct termios), restricted to
the bits the program touches plus a remainder field standing for all
untouched bits, so that restoring the structure is bit-for-bit restoration. -/
structure Termios where
  echo : Bool
  icanon : Bool
  isig : Bool
  iexten : Bool
  ixon : Bool
  icrnl : Bool
  brkint : Bool
  inpck : Bool
  istrip : Bool
  opost : Bool
  cs8 : Bool
  vmin : Nat
  vtime : Nat
  otherBits : Nat
deriving DecidableEq, Repr

/-- The raw configuration derived in terminal_enable_raw_mode from the saved
original: clears ECHO, ICANON, ISIG, IEXTEN, IXON, ICRNL, BRKINT, INPCK,
ISTRIP, OPOST, sets CS8, VMIN := 0, VTIME := 1; all other bits unchanged. -/
def makeRaw (t : Termios) : Termios :=
  { t with
    echo := false, icanon := false, isig := false, iexten := false,
    ixon := false, icrnl := false, brkint := false, inpck := false,
    istrip := false, opost := false, cs8 := true, vmin := 0, vtime := 1 }

/-- TerminalState from terminal.h. The input_buffer / buffer_size / buffer_pos
fields of the C struct are set up once but never consulted by the event loop
(aish_run keeps its own local buffer), so only the fields the embedded
functions read are kept. -/
structure TerminalState where
  original_termios : Termios
  raw_mode_enabled : Bool
  current_mode : InputMode
deriving DecidableEq, Repr

/-- terminal_enable_raw_mode. `tty` is the real terminal's current
configuration; `tcgetOk` / `tcsetOk` model success of the tcgetattr /
tcsetattr system calls. Returns (new TerminalState, new tty configuration,
C return value). On tcgetattr failure nothing is changed; after a successful
tcgetattr the original configuration is captured even if the subsequent
tcsetattr fails (in which case raw_mode_enabled stays false). -/
def terminal_enable_raw_mode (term : TerminalState) (tty : Termios)
    (tcgetOk tcsetOk : Bool) : TerminalState × Termios × Bool :=
  if !tcgetOk then (term, tty, false)
  else
    let term1 := { term with original_termios := tty }
    let raw := makeRaw tty
    if !tcsetOk then (term1, tty, false)
    else ({ term1 with raw_mode_enabled := true }, raw, true)

/-- terminal_disable_raw_mode: a no-op unless raw_mode_enabled; otherwise
restores the saved original configuration to the terminal (when tcsetattr
succeeds; on failure only a warning is printed) and clears the flag either
way. -/
def terminal_disable_raw_mode (term : TerminalState) (tty : Termios)
    (tcsetOk : Bool) : TerminalState × Termios :=
  if !term.raw_mode_enabled then (term, tty)
  else
    ({ term with raw_mode_enabled := false },
     if tcsetOk then term.original_termios else tty)

/-- terminal_process_key from terminal.c: the byte is consumed as the mode
toggle iff it is TAB (9) and either the buffer position is 0 or the current
mode is MODE_CHAT; on consumption the mode flips. Returns (consumed, mode
after the call). -/
def terminal_process_key (mode : InputMode) (key : Nat) (input_pos : Nat) :
    Bool × InputMode :=
  if key = 9 ∧ (input_pos = 0 ∨ mode = InputMode.MODE_CHAT) then
    (true, mode.flip)
  else
    (false, mode)

/-- A record of the bytes written on each output channel during a piece of
execution: bytes written to the child's input channel (the pty master fd),
bytes written to the real terminal's stdout, and diagnostic messages printed
to stderr. -/
structure IOLog where
  toChild : List Nat
  toStdout : List Nat
  toStderr : List String
deriving DecidableEq, Repr

def IOLog.empty : IOLog := ⟨[], [], []⟩

def IOLog.app (a b : IOLog) : IOLog :=
  ⟨a.toChild ++ b.toChild, a.toStdout ++ b.toStdout, a.toStderr ++ b.toStderr⟩

/-- A write of raw bytes to the child's input channel. -/
def childW (bs : List Nat) : IOLog := ⟨bs, [], []⟩

/-- A write of raw bytes to stdout. -/
def outW (bs : List Nat) : IOLog := ⟨[], bs, []⟩

/-- Diagnostic messages printed to stderr. -/
def errW (msgs : List String) : IOLog := ⟨[], [], msgs⟩

@[simp] theorem IOLog.app_toChild (a b : IOLog) :
    (IOLog.app a b).toChild = a.toChild ++ b.toChild := rfl

@[simp] theorem IOLog.app_toStdout (a b : IOLog) :
    (IOLog.app a b).toStdout = a.toStdout ++ b.toStdout := rfl

@[simp] theorem IOLog.app_toStderr (a b : IOLog) :
    (IOLog.app a b).toStderr = a.toStderr ++ b.toStderr := rfl

@[simp] theorem childW_toChild (bs : List Nat) : (childW bs).toChild = bs := rfl

@[simp] theorem childW_toStdout (bs : List Nat) : (childW bs).toStdout = [] := rfl

@[simp] theorem childW_toStderr (bs : List Nat) : (childW bs).toStderr = [] := rfl

@[simp] theorem outW_toChild (bs : List Nat) : (outW bs).toChild = [] := rfl

@[simp] theorem errW_toChild (msgs : List String) : (errW msgs).toChild = [] := rfl

@[simp] theorem empty_toChild : IOLog.empty.toChild = [] := rfl

@[simp] theorem IOLog.app_empty (a : IOLog) : IOLog.app a IOLog.empty = a := by
  cases a; simp [IOLog.app, IOLog.empty]

@[simp] theorem IOLog.empty_app (a : IOLog) : IOLog.app IOLog.empty a = a := by
  cases a; simp [IOLog.app, IOLog.empty]

theorem IOLog.app_assoc (a b c : IOLog) :
    IOLog.app (IOLog.app a b) c = IOLog.app a (IOLog.app b c) := by
  cases a; cases b; cases c; simp [IOLog.app]

/-- The outcome of one call to api_send_request, the outside translation
collaborator: either the request itself failed (optionally with an error
message placed in response.error), or a response arrived carrying the
is_valid flag and the extracted command bytes (none models a NULL command
pointer). -/
inductive ApiOutcome where
  | requestFailed (errMsg : Option String)
  | response (is_valid : Bool) (command : Option (List Nat))
deriving DecidableEq, Repr

/-- INPUT_BUFFER_SIZE from aish.c. -/
def INPUT_BUFFER_SIZE : Nat := 1024

/-- Result of process_chat_input from chat.c: the resulting input mode, the
C return value, and the writes performed. -/
structure ChatInputResult where
  mode : InputMode
  ok : Bool
  log : IOLog
deriving DecidableEq, Repr

/-- process_chat_input from chat.c. `input` is the buffered line handed over
(the C call passes input_buffer with length input_pos); `api` is the outcome
of the api_send_request exchange for that line. On a failed request or an
invalid / NULL command an error is printed to stderr, nothing is written to
the child, and the mode is left unchanged; on success the command bytes and
one newline are written to the child's input channel and the mode is set to
MODE_BASH. Writes to the child are modelled as succeeding. -/
def process_chat_input (mode : InputMode) (input : List Nat)
    (api : ApiOutcome) : ChatInputResult :=
  if input.length = 0 then ⟨mode, false, IOLog.empty⟩
  else
    match api with
    | .requestFailed e =>
        ⟨mode, false,
          errW (["Error: Failed to send API request"] ++
            (match e with | some m => ["API Error: " ++ m] | none => []))⟩
    | .response valid cmd =>
        if valid = false ∨ cmd = none then
          ⟨mode, false, errW ["Error: Invalid command received from API"]⟩
        else
          ⟨InputMode.MODE_BASH, true, childW (cmd.getD [] ++ [10])⟩

/-- Bytes of the string "aish (CHAT): " printed by terminal_get_prompt in
Chat mode. -/
def chatPromptBytes : List Nat :=
  [97, 105, 115, 104, 32, 40, 67, 72, 65, 84, 41, 58, 32]

/-- Bytes of the clear-line escape sequence written by display_prompt. -/
def clearLineBytes : List Nat := [13, 27, 91, 50, 75]

/-- display_prompt from prompt.c: clears the current line on stdout; then in
Chat mode writes the chat prompt to stdout, while in Bash mode writes a
single newline byte to the child's input channel to make bash redraw its own
prompt. -/
def display_prompt (mode : InputMode) : IOLog :=
  IOLog.app (outW clearLineBytes)
    (match mode with
     | .MODE_CHAT => outW chatPromptBytes
     | .MODE_BASH => childW [10])

/-- Result of one keypress handler call: resulting mode, line buffer, buffer
position and writes performed. -/
structure KeyResult where
  mode : InputMode
  buf : List Nat
  pos : Nat
  log : IOLog
deriving DecidableEq, Repr

/-- process_chat_keypress from aish.c. On CR or LF: terminate the buffered
line (input_buffer[pos] := 0), echo a CRLF to stdout, hand the line to
process_chat_input, reset the position to 0 and redisplay the prompt for the
(possibly changed) mode. On backspace (127 or 8): drop the last buffered
character when the buffer is non-empty and echo a rub-out, no-op otherwise.
Any other byte is appended when pos < INPUT_BUFFER_SIZE - 1 and echoed
locally, and silently dropped otherwise. Echo writes are modelled as
succeeding. -/
def process_chat_keypress (mode : InputMode) (c : Nat) (buf : List Nat)
    (pos : Nat) (api : List Nat → ApiOutcome) : KeyResult :=
  if c = 13 ∨ c = 10 then
    let buf1 := buf.set pos 0
    let line := buf1.take pos
    let r := process_chat_input mode line (api line)
    ⟨r.mode, buf1, 0,
      IOLog.app (outW [13, 10]) (IOLog.app r.log (display_prompt r.mode))⟩
  else if c = 127 ∨ c = 8 then
    if 0 < pos then ⟨mode, buf, pos - 1, outW [8, 32, 8]⟩
    else ⟨mode, buf, pos, IOLog.empty⟩
  else
    if pos < INPUT_BUFFER_SIZE - 1 then
      ⟨mode, buf.set pos c, pos + 1, outW [c]⟩
    else ⟨mode, buf, pos, IOLog.empty⟩

/-- process_bash_keypress from aish.c: the byte is always forwarded to the
child's input channel as a single-byte write; the shadow buffer used only
for toggle detection is then updated (reset on CR/LF, decrement on
backspace, append under the INPUT_BUFFER_SIZE - 1 bound otherwise). Returns
(buffer, position, writes); the mode is never changed here. -/
def process_bash_keypress (c : Nat) (buf : List Nat) (pos : Nat) :
    List Nat × Nat × IOLog :=
  if c = 13 ∨ c = 10 then (buf, 0, childW [c])
  else if c = 127 ∨ c = 8 then
    (buf, if 0 < pos then pos - 1 else pos, childW [c])
  else
    if pos < INPUT_BUFFER_SIZE - 1 then (buf.set pos c, pos + 1, childW [c])
    else (buf, pos, childW [c])

/-- The per-keystroke portion of the session state inside aish_run: the
current input mode together with the local input_buffer and input_pos. -/
structure SessState where
  mode : InputMode
  buf : List Nat
  pos : Nat
deriving DecidableEq, Repr

/-- One stdin byte processed by the event loop body of aish_run: the byte is
first offered to terminal_process_key; if consumed as the toggle, input_pos
is reset to 0 and the prompt for the new mode is displayed; otherwise the
byte is routed to process_bash_keypress or process_chat_keypress according
to the current mode. -/
def stdinStep (api : List Nat → ApiOutcome) (st : SessState) (c : Nat) :
    SessState × IOLog :=
  let t := terminal_process_key st.mode c st.pos
  if t.1 then
    (⟨t.2, st.buf, 0⟩, display_prompt t.2)
  else
    match st.mode with
    | .MODE_BASH =>
        let r := process_bash_keypress c st.buf st.pos
        (⟨st.mode, r.1, r.2.1⟩, r.2.2)
    | .MODE_CHAT =>
        let r := process_chat_keypress st.mode c st.buf st.pos api
        (⟨r.mode, r.buf, r.pos⟩, r.log)

/-- Feeding a whole byte sequence to the stdin side of the event loop,
accumulating the writes. -/
def runBytes (api : List Nat → ApiOutcome) (st : SessState) :
    List Nat → SessState × IOLog
  | [] => (st, IOLog.empty)
  | c :: rest =>
      let s1 := stdinStep api st c
      let s2 := runBytes api s1.1 rest
      (s2.1, IOLog.app s1.2 s2.2)

/-- The byte sequence contains no occurrence of the toggle gesture along its
processing (no tab byte arriving while terminal_process_key would consume
it). -/
def noToggle (api : List Nat → ApiOutcome) (st : SessState) :
    List Nat → Bool
  | [] => true
  | c :: rest =>
      if (terminal_process_key st.mode c st.pos).1 then false
      else noToggle api (stdinStep api st c).1 rest

/-- Bytes of the string "list files" as a concrete assisted-mode input. -/
def listFilesBytes : List Nat := [108, 105, 115, 116, 32, 102, 105, 108, 101, 115]

/-- Bytes of the command "ls -la". -/
def lsDashLaBytes : List Nat := [108, 115, 32, 45, 108, 97]

/-- A collaborator oracle that translates "list files" into the valid command
"ls -la" and fails on anything else. -/
def apiListFiles : List Nat → ApiOutcome :=
  fun line =>
    if line = listFilesBytes then ApiOutcome.response true (some lsDashLaBytes)
    else ApiOutcome.requestFailed none

/-- A collaborator oracle whose request always fails. -/
def apiNone : List Nat → ApiOutcome := fun _ => ApiOutcome.requestFailed none

/-- The translation exchange failed or produced an invalid / NULL command:
exactly the conditions chat.c treats as errors. -/
def apiFails : ApiOutcome → Bool
  | .requestFailed _ => true
  | .response v c => !v || c.isNone

/-- A byte that Assisted-mode editing treats as ordinary input: not a line
terminator, not a backspace, and not the tab toggle byte. -/
def printable (c : Nat) : Bool :=
  (c != 13) && (c != 10) && (c != 127) && (c != 8) && (c != 9)

/-- Possible outcomes of the stdin side of one select round: the descriptor
was not ready, one byte was read, the read failed with a real error, or the
read yielded nothing (zero bytes or EAGAIN). -/
inductive StdinEv where
  | quiet
  | byte (c : Nat)
  | readErr
  | eagain
deriving DecidableEq, Repr

/-- Possible outcomes of the child-output side of one select round: not
ready, a chunk of output bytes (with the success of the echoing stdout
write), end-of-file because the child closed the pty, a real read error, or
EAGAIN. -/
inductive BashEv where
  | quiet
  | data (bs : List Nat) (stdoutOk : Bool)
  | eof
  | readErr
  | eagain
deriving DecidableEq, Repr

/-- Outcome of the per-iteration non-blocking waitpid probe. -/
inductive ChildEv where
  | alive
  | exited (status : Nat)
  | waitErr
deriving DecidableEq, Repr

/-- The environment's behaviour for one event-loop iteration: select was
interrupted (with or without a termination signal having cleared the
running flag), select failed outright, or select reported readiness and the
three probes produced the given outcomes. -/
inductive IterEvent where
  | eintr (sigArrived : Bool)
  | selectErr
  | ioReady (sin : StdinEv) (bout : BashEv) (child : ChildEv)
deriving DecidableEq, Repr

/-- The mutable state of aish_run's event loop: the terminal controller
state, the local input buffer and position, and the running flag. -/
structure LoopState where
  term : TerminalState
  buf : List Nat
  pos : Nat
  running : Bool
deriving DecidableEq, Repr

/-- Result of one loop iteration: either the loop breaks out or continues,
in both cases with the updated state and the writes of the iteration. -/
inductive StepOut where
  | brk (st : LoopState) (log : IOLog)
  | cont (st : LoopState) (log : IOLog)
deriving DecidableEq, Repr

def StepOut.state : StepOut → LoopState
  | .brk s _ => s
  | .cont s _ => s

/-- The waitpid(WNOHANG) probe at the end of a loop iteration: child still
alive means continue unchanged; child exited reports the status and clears
the running flag; a waitpid error breaks out of the loop. -/
def childProbe (st : LoopState) (log : IOLog) : ChildEv → StepOut
  | .alive => .cont st log
  | .exited _ =>
      .cont { st with running := false }
        (IOLog.app log (errW ["Bash process has exited with status"]))
  | .waitErr => .brk st (IOLog.app log (errW ["Error: waitpid() failed"]))

/-- The child-output half of a loop iteration (aish_process_bash_output
followed by the waitpid probe): a chunk of output is copied verbatim to
stdout (a failed stdout write breaks the loop), EOF reports the exit and
clears the running flag, a real read error breaks, EAGAIN or an unready
descriptor does nothing; then the waitpid probe runs. -/
def bashSide (st : LoopState) (log : IOLog) (bout : BashEv)
    (child : ChildEv) : StepOut :=
  match bout with
  | .data bs ok =>
      if ok then childProbe st (IOLog.app log (outW bs)) child
      else
        StepOut.brk st (IOLog.app log
          (errW ["Error: Failed to write bash output to stdout"]))
  | .eof =>
      childProbe { st with running := false }
        (IOLog.app log (errW ["Bash process has exited"])) child
  | .readErr =>
      StepOut.brk st (IOLog.app log (errW ["Error: Failed to read from bash"]))
  | _ => childProbe st log child

/-- One iteration of the while loop in aish_run. EINTR re-checks the
running flag (break only if a signal cleared it); any other select failure
breaks. Otherwise: a stdin byte is processed by stdinStep (whose write
errors are printed but do not break the loop, matching the ignored return
values in the C code) — and a byte consumed as the mode toggle makes the
iteration continue immediately, skipping the child-output check and the
waitpid probe for this round; a stdin read error breaks; otherwise the
child-output half of the iteration runs. -/
def iterateLoop (api : List Nat → ApiOutcome) (st : LoopState) :
    IterEvent → StepOut
  | .eintr sig =>
      let st1 := if sig then { st with running := false } else st
      if st1.running then StepOut.cont st1 IOLog.empty
      else StepOut.brk st1 IOLog.empty
  | .selectErr => StepOut.brk st (errW ["Error: select() failed"])
  | .ioReady sin bout child =>
      match sin with
      | .readErr => StepOut.brk st (errW ["Error: Failed to read from stdin"])
      | .byte c =>
          let r := stdinStep api ⟨st.term.current_mode, st.buf, st.pos⟩ c
          let st1 : LoopState :=
            { st with
                term := { st.term with current_mode := r.1.mode },
                buf := r.1.buf, pos := r.1.pos }
          if (terminal_process_key st.term.current_mode c st.pos).1 then
            StepOut.cont st1 r.2
          else bashSide st1 r.2 bout child
      | _ => bashSide st IOLog.empty bout child

/-- The while loop of aish_run, driven by a list of per-iteration
environment events and a fuel bound. Returns none when the loop has not
exited within the supplied fuel/events (it would still be blocked in
select), and otherwise the state and accumulated writes at the moment the
loop falls through to teardown. -/
def loopRun (api : List Nat → ApiOutcome) :
    Nat → LoopState → List IterEvent → IOLog → Option (LoopState × IOLog)
  | 0, _, _, _ => none
  | fuel + 1, st, evs, log =>
      if st.running = false then some (st, log)
      else
        match evs with
        | [] => none
        | e :: rest =>
            match iterateLoop api st e with
            | .brk st1 l1 => some (st1, IOLog.app log l1)
            | .cont st1 l1 => loopRun api fuel st1 rest (IOLog.app log l1)

def EXIT_SUCCESS : Nat := 0

def EXIT_FAILURE : Nat := 1

/-- What aish_run produced: the returned exit code, whether the event loop
was entered, how many times a real raw-mode restoration (a
terminal_disable_raw_mode call finding raw_mode_enabled true) was
performed during the whole call, and the final controller state, terminal
configuration and writes. -/
structure RunResult where
  exitCode : Nat
  enteredLoop : Bool
  restores : Nat
  term : TerminalState
  tty : Termios
  log : IOLog
deriving DecidableEq, Repr

/-- The banner printed before the loop starts. -/
def welcomeLog : IOLog :=
  errW ["AISH - AI Shell v0.1",
    "Press Tab when the input is empty to toggle between Bash and Chat modes."]

/-- aish_run from aish.c: enable raw mode (failure returns EXIT_FAILURE
before the loop), run the event loop, then call terminal_disable_raw_mode
exactly once after the loop ends — the loop body itself contains no call to
it, so restores counts the single post-loop call, which performs a real
restoration iff the flag is still set. Returns EXIT_SUCCESS after the loop
regardless of which exit path ended it. -/
def aish_run (api : List Nat → ApiOutcome) (term : TerminalState)
    (tty : Termios) (tcgetOk tcsetOk : Bool) (fuel : Nat)
    (evs : List IterEvent) : Option RunResult :=
  match terminal_enable_raw_mode term tty tcgetOk tcsetOk with
  | (term1, tty1, false) =>
      some ⟨EXIT_FAILURE, false, 0, term1, tty1,
        errW ["Error: Failed to enable raw mode"]⟩
  | (term1, tty1, true) =>
      let st0 : LoopState :=
        ⟨term1, List.replicate INPUT_BUFFER_SIZE 0, 0, true⟩
      match loopRun api fuel st0 evs welcomeLog with
      | none => none
      | some (st1, log1) =>
          let restored := st1.term.raw_mode_enabled
          let d := terminal_disable_raw_mode st1.term tty1 true
          some ⟨EXIT_SUCCESS, true, if restored then 1 else 0, d.1, d.2,
            log1⟩

/-- A concrete terminal configuration used by witnesses. -/
def tty0 : Termios :=
  ⟨true, true, true, true, true, true, true, true, true, true, false, 1, 0, 7⟩

/-- A concrete initial controller state used by witnesses. -/
def term0 : TerminalState := ⟨tty0, false, InputMode.MODE_BASH⟩

/-- A default RunResult used only to project concrete run outcomes. -/
def rDefault : RunResult := ⟨0, false, 0, term0, tty0, IOLog.empty⟩

end Aish

namespace Aish

/-- C8: terminal_disable_raw_mode restores the configuration captured by
terminal_enable_raw_mode bit-for-bit (the restored tty equals the tty saved
before modification); disable is a no-op when raw mode is not enabled; and a
second disable after a first one changes nothing (idempotence), for any
outcome of the underlying system calls. -/
theorem raw_mode_disable_contract :
    (∀ (term : TerminalState) (tty : Termios),
      (terminal_enable_raw_mode term tty true true).2.2 = true ∧
      (terminal_disable_raw_mode (terminal_enable_raw_mode term tty true true).1
        (terminal_enable_raw_mode term tty true true).2.1 true).2 = tty) ∧
    (∀ (term : TerminalState) (tty : Termios) (ok : Bool),
      terminal_disable_raw_mode { term with raw_mode_enabled := false } tty ok =
        ({ term with raw_mode_enabled := false }, tty)) ∧
    (∀ (term : TerminalState) (tty : Termios) (ok1 ok2 : Bool),
      terminal_disable_raw_mode
        (terminal_disable_raw_mode term tty ok1).1
        (terminal_disable_raw_mode term tty ok1).2 ok2 =
      terminal_disable_raw_mode term tty ok1) := by
  refine ⟨fun term tty => ⟨rfl, rfl⟩, fun term tty ok => rfl, ?_⟩
  intro term tty ok1 ok2
  cases h : term.raw_mode_enabled <;>
    simp [terminal_disable_raw_mode, h]

/-- C4: a byte is consumed as the mode toggle iff it is the tab byte (9) and
either the mode is PassThrough (MODE_BASH) with buffer position zero or the
mode is Assisted (MODE_CHAT); consumption flips the mode, and in the event
loop it resets the buffer position to zero; a non-consumed byte leaves
terminal_process_key's mode unchanged. -/
theorem toggle_gesture_contract (mode : InputMode) (key p : Nat) :
    ((terminal_process_key mode key p).1 = true ↔
      (key = 9 ∧ ((mode = InputMode.MODE_BASH ∧ p = 0) ∨
        mode = InputMode.MODE_CHAT))) ∧
    ((terminal_process_key mode key p).1 = true →
      (terminal_process_key mode key p).2 = mode.flip) ∧
    ((terminal_process_key mode key p).1 = false →
      (terminal_process_key mode key p).2 = mode) ∧
    (∀ (api : List Nat → ApiOutcome) (buf : List Nat),
      (terminal_process_key mode key p).1 = true →
      (stdinStep api ⟨mode, buf, p⟩ key).1.mode = mode.flip ∧
      (stdinStep api ⟨mode, buf, p⟩ key).1.pos = 0) := by
  cases mode <;>
    by_cases hk : key = 9 <;>
    by_cases hp : p = 0 <;>
    simp [terminal_process_key, stdinStep, InputMode.flip, hk, hp]

/-- Witness for toggle_gesture_contract: the tab byte at start of line in
PassThrough mode toggles into Assisted mode and resets the position. -/
theorem toggle_gesture_contract_witness :
    (stdinStep apiNone ⟨InputMode.MODE_BASH, [], 0⟩ 9).1.mode =
      InputMode.MODE_BASH.flip ∧
    (stdinStep apiNone ⟨InputMode.MODE_BASH, [], 0⟩ 9).1.pos = 0 :=
  (toggle_gesture_contract InputMode.MODE_BASH 9 0).2.2.2 apiNone []
    (by decide)

theorem process_bash_keypress_log (c : Nat) (buf : List Nat) (p : Nat) :
    (process_bash_keypress c buf p).2.2 = childW [c] := by
  unfold process_bash_keypress
  split
  · rfl
  · split
    · rfl
    · split <;> rfl

theorem stdinStep_bash (api : List Nat → ApiOutcome) (st : SessState) (c : Nat)
    (hm : st.mode = InputMode.MODE_BASH)
    (hc : (terminal_process_key st.mode c st.pos).1 = false) :
    stdinStep api st c =
      (⟨InputMode.MODE_BASH, (process_bash_keypress c st.buf st.pos).1,
        (process_bash_keypress c st.buf st.pos).2.1⟩, childW [c]) := by
  rw [hm] at hc
  simp [stdinStep, hm, hc, process_bash_keypress_log c st.buf st.pos]

/-- C5: a byte sequence fed to the event loop in PassThrough mode that never
contains the toggle gesture (tab at buffer position zero) is forwarded to
the child's input channel unchanged and in order, one single-byte write per
byte, and the mode remains PassThrough. -/
theorem passthrough_forwarding (api : List Nat → ApiOutcome) (st : SessState)
    (bs : List Nat) (hm : st.mode = InputMode.MODE_BASH)
    (h : noToggle api st bs = true) :
    (runBytes api st bs).2.toChild = bs ∧
    (runBytes api st bs).1.mode = InputMode.MODE_BASH := by
  induction bs generalizing st with
  | nil => simpa [runBytes] using hm
  | cons c rest ih =>
      rw [noToggle] at h
      by_cases hc : (terminal_process_key st.mode c st.pos).1 = true
      · rw [if_pos hc] at h
        exact absurd h (by simp)
      · replace hc : (terminal_process_key st.mode c st.pos).1 = false := by
          simpa using hc
        rw [if_neg (by simp [hc])] at h
        have hstep := stdinStep_bash api st c hm hc
        have ihr := ih (stdinStep api st c).1 (by rw [hstep]) h
        simp only [runBytes]
        rw [hstep] at ihr ⊢
        simp only [IOLog.app_toChild, childW_toChild]
        refine ⟨?_, ihr.2⟩
        rw [ihr.1]
        simp

/-- Witness for passthrough_forwarding: the bytes of "ls" plus a carriage
return pass through verbatim. -/
theorem passthrough_forwarding_witness :
    (runBytes apiNone ⟨InputMode.MODE_BASH, [0, 0, 0, 0], 0⟩
      [108, 115, 13]).2.toChild = [108, 115, 13] :=
  (passthrough_forwarding apiNone ⟨InputMode.MODE_BASH, [0, 0, 0, 0], 0⟩
    [108, 115, 13] rfl (by decide)).1

/-- C6: once the buffer position has reached the fixed bound
(INPUT_BUFFER_SIZE - 1), a further byte that is neither a line terminator
nor a backspace is dropped in Assisted mode: the position does not advance
and the buffer is unchanged; the same bound check protects the PassThrough
shadow buffer. -/
theorem buffer_bound_drop (mode : InputMode) (api : List Nat → ApiOutcome)
    (c : Nat) (buf : List Nat) (p : Nat)
    (hp : INPUT_BUFFER_SIZE - 1 ≤ p)
    (h1 : ¬(c = 13 ∨ c = 10)) (h2 : ¬(c = 127 ∨ c = 8)) :
    (process_chat_keypress mode c buf p api).pos = p ∧
    (process_chat_keypress mode c buf p api).buf = buf ∧
    (process_bash_keypress c buf p).2.1 = p ∧
    (process_bash_keypress c buf p).1 = buf := by
  have hlt : ¬ p < INPUT_BUFFER_SIZE - 1 := by omega
  simp [process_chat_keypress, process_bash_keypress, h1, h2, hlt]

/-- Witness for buffer_bound_drop: at position 1023 the byte 97 is dropped
by both handlers. -/
theorem buffer_bound_drop_witness :
    (process_chat_keypress InputMode.MODE_CHAT 97 [] 1023 apiNone).pos =
      1023 ∧
    (process_bash_keypress 97 [] 1023).2.1 = 1023 :=
  ⟨(buffer_bound_drop InputMode.MODE_CHAT apiNone 97 [] 1023 (by decide)
      (by decide) (by decide)).1,
   (buffer_bound_drop InputMode.MODE_CHAT apiNone 97 [] 1023 (by decide)
      (by decide) (by decide)).2.2.1⟩

theorem runBytes_append (api : List Nat → ApiOutcome) (st : SessState)
    (xs ys : List Nat) :
    runBytes api st (xs ++ ys) =
      ((runBytes api (runBytes api st xs).1 ys).1,
       IOLog.app (runBytes api st xs).2
         (runBytes api (runBytes api st xs).1 ys).2) := by
  induction xs generalizing st with
  | nil => simp [runBytes]
  | cons x xs ih =>
      simp only [List.cons_append, runBytes, List.append_eq]
      rw [ih]
      simp [IOLog.app_assoc]

theorem chat_feed (api : List Nat → ApiOutcome) (st : SessState)
    (cs : List Nat) (hm : st.mode = InputMode.MODE_CHAT)
    (hall : ∀ c ∈ cs, printable c = true)
    (hlen : st.pos + cs.length ≤ INPUT_BUFFER_SIZE - 1) :
    (runBytes api st cs).1.mode = InputMode.MODE_CHAT ∧
    (runBytes api st cs).1.pos = st.pos + cs.length ∧
    (runBytes api st cs).2.toChild = [] := by
  induction cs generalizing st with
  | nil => simp [runBytes, hm]
  | cons c rest ih =>
      have hcp : printable c = true := hall c (by simp)
      have hc13 : c ≠ 13 := by simp [printable] at hcp; omega
      have hc10 : c ≠ 10 := by simp [printable] at hcp; omega
      have hc127 : c ≠ 127 := by simp [printable] at hcp; omega
      have hc8 : c ≠ 8 := by simp [printable] at hcp; omega
      have hc9 : c ≠ 9 := by simp [printable] at hcp; omega
      simp only [List.length_cons] at hlen
      have hroom : st.pos < INPUT_BUFFER_SIZE - 1 := by omega
      have hlen1 : st.pos + 1 + rest.length ≤ INPUT_BUFFER_SIZE - 1 := by
        omega
      have hstep : stdinStep api st c =
          (⟨InputMode.MODE_CHAT, st.buf.set st.pos c, st.pos + 1⟩,
           outW [c]) := by
        simp [stdinStep, terminal_process_key, process_chat_keypress,
          hm, hc9, hc13, hc10, hc127, hc8, hroom]
      have ihr := ih (stdinStep api st c).1
        (by rw [hstep]) (fun b hb => hall b (by simp [hb]))
        (by rw [hstep]; simpa using hlen1)
      rw [hstep] at ihr
      dsimp only at ihr
      simp only [runBytes]
      rw [hstep]
      refine ⟨ihr.1, ?_, ?_⟩
      · dsimp only
        rw [ihr.2.1]
        simp only [List.length_cons]
        omega
      · simp [ihr.2.2]

theorem chat_backspaces (api : List Nat → ApiOutcome) (st : SessState)
    (hm : st.mode = InputMode.MODE_CHAT) (n : Nat) :
    (runBytes api st (List.replicate n 127)).1.mode = InputMode.MODE_CHAT ∧
    (runBytes api st (List.replicate n 127)).1.pos = st.pos - n ∧
    (runBytes api st (List.replicate n 127)).2.toChild = [] := by
  induction n generalizing st with
  | zero => simp [runBytes, hm]
  | succ n ih =>
      have hstep : (stdinStep api st 127).1 =
            ⟨InputMode.MODE_CHAT, st.buf, st.pos - 1⟩ ∧
          (stdinStep api st 127).2.toChild = [] := by
        by_cases hz : 0 < st.pos
        · simp [stdinStep, terminal_process_key, process_chat_keypress,
            hm, hz, IOLog.empty]
        · simp [stdinStep, terminal_process_key, process_chat_keypress,
            hm, hz, IOLog.empty]
          omega
      have ihr := ih (stdinStep api st 127).1 (by rw [hstep.1])
      rw [hstep.1] at ihr
      dsimp only at ihr
      simp only [List.replicate_succ, runBytes]
      rw [hstep.1]
      refine ⟨ihr.1, ?_, ?_⟩
      · dsimp only
        rw [ihr.2.1]
        omega
      · simp [ihr.2.2, hstep.2]

/-- C7: in Assisted mode with an empty buffer, typing a sequence of
printable bytes (its length below the buffer bound) followed by the same
number of backspaces leaves the buffer position at zero and writes nothing
to the child's input channel during the whole sequence; a backspace on an
already empty buffer is a position no-op and also writes nothing to the
child. -/
theorem chat_type_then_backspace (api : List Nat → ApiOutcome)
    (buf : List Nat) (cs : List Nat) (n : Nat) (hn : cs.length = n)
    (hbound : n ≤ INPUT_BUFFER_SIZE - 1)
    (hall : ∀ c ∈ cs, printable c = true) :
    (runBytes api ⟨InputMode.MODE_CHAT, buf, 0⟩
        (cs ++ List.replicate n 127)).1.pos = 0 ∧
    (runBytes api ⟨InputMode.MODE_CHAT, buf, 0⟩
        (cs ++ List.replicate n 127)).2.toChild = [] ∧
    (stdinStep api ⟨InputMode.MODE_CHAT, buf, 0⟩ 127).1.pos = 0 ∧
    (stdinStep api ⟨InputMode.MODE_CHAT, buf, 0⟩ 127).2.toChild = [] := by
  have hfeed := chat_feed api ⟨InputMode.MODE_CHAT, buf, 0⟩ cs rfl hall
    (by simpa [hn] using hbound)
  have hback := chat_backspaces api
    (runBytes api ⟨InputMode.MODE_CHAT, buf, 0⟩ cs).1 hfeed.1 n
  rw [runBytes_append]
  refine ⟨?_, ?_, ?_, ?_⟩
  · rw [hback.2.1, hfeed.2.1]; simp [hn]
  · simp [hfeed.2.2, hback.2.2]
  · have := chat_backspaces api ⟨InputMode.MODE_CHAT, buf, 0⟩ rfl 1
    simpa [runBytes] using this.2.1
  · have := chat_backspaces api ⟨InputMode.MODE_CHAT, buf, 0⟩ rfl 1
    simpa [runBytes] using this.2.2

/-- Witness for chat_type_then_backspace: typing "hi" then two backspaces. -/
theorem chat_type_then_backspace_witness :
    (runBytes apiNone ⟨InputMode.MODE_CHAT, [0, 0, 0, 0], 0⟩
        ([104, 105] ++ List.replicate 2 127)).1.pos = 0 ∧
    (runBytes apiNone ⟨InputMode.MODE_CHAT, [0, 0, 0, 0], 0⟩
        ([104, 105] ++ List.replicate 2 127)).2.toChild = [] :=
  ⟨(chat_type_then_backspace apiNone [0, 0, 0, 0] [104, 105] 2 rfl
      (by decide) (by decide)).1,
   (chat_type_then_backspace apiNone [0, 0, 0, 0] [104, 105] 2 rfl
      (by decide) (by decide)).2.1⟩

/-- C2 counterexample: flushing the assisted-mode line "list files" with a
collaborator that returns the valid command "ls -la" does NOT write exactly
the bytes of "ls -la" plus one newline to the child: the prompt redisplay
adds a further newline byte, so the claim as stated is false at this
input. -/
theorem assisted_flush_exact_bytes_cex :
    ¬((stdinStep apiListFiles
        ⟨InputMode.MODE_CHAT, listFilesBytes ++ [0], 10⟩ 13).2.toChild =
          lsDashLaBytes ++ [10] ∧
      (stdinStep apiListFiles
        ⟨InputMode.MODE_CHAT, listFilesBytes ++ [0], 10⟩ 13).1.mode =
          InputMode.MODE_BASH) := by
  decide

/-- C2 amended: a successful translation of "list files" into "ls -la"
writes exactly the bytes of "ls -la" followed by a single newline to the
child's input channel in the translation injection itself; over the whole
flush the prompt redisplay then writes one further newline byte, and the
mode afterwards is PassThrough. -/
theorem assisted_flush_ls_la :
    (process_chat_input InputMode.MODE_CHAT listFilesBytes
        (apiListFiles listFilesBytes)).log.toChild = lsDashLaBytes ++ [10] ∧
    (stdinStep apiListFiles
        ⟨InputMode.MODE_CHAT, listFilesBytes ++ [0], 10⟩ 13).2.toChild =
      (lsDashLaBytes ++ [10]) ++ [10] ∧
    (stdinStep apiListFiles
        ⟨InputMode.MODE_CHAT, listFilesBytes ++ [0], 10⟩ 13).1.mode =
      InputMode.MODE_BASH := by
  decide

/-- C3 counterexample: a flush whose translation request fails does write
zero bytes to the child and does surface an error, but the mode afterwards
is NOT PassThrough (the session stays in Assisted mode), so the claim as
stated is false at this input. -/
theorem failed_translation_mode_cex :
    ¬((process_chat_keypress InputMode.MODE_CHAT 13 [108, 0] 1
        apiNone).log.toChild = [] ∧
      (process_chat_keypress InputMode.MODE_CHAT 13 [108, 0] 1
        apiNone).log.toStderr ≠ [] ∧
      (process_chat_keypress InputMode.MODE_CHAT 13 [108, 0] 1
        apiNone).mode = InputMode.MODE_BASH) := by
  decide

/-- C3 amended: every assisted-mode flush of a non-empty line whose
translation exchange fails or returns an invalid or NULL command writes
zero bytes to the child's input channel, surfaces an error message to the
user, clears the buffer position, and leaves the session in Assisted
(MODE_CHAT) mode rather than reverting to PassThrough. -/
theorem failed_translation_flush (api : List Nat → ApiOutcome)
    (buf : List Nat) (p c : Nat) (hp : 0 < p) (hlen : p < buf.length)
    (hc : c = 13 ∨ c = 10)
    (hfail : apiFails (api ((buf.set p 0).take p)) = true) :
    (process_chat_keypress InputMode.MODE_CHAT c buf p api).log.toChild =
      [] ∧
    (process_chat_keypress InputMode.MODE_CHAT c buf p api).log.toStderr ≠
      [] ∧
    (process_chat_keypress InputMode.MODE_CHAT c buf p api).mode =
      InputMode.MODE_CHAT ∧
    (process_chat_keypress InputMode.MODE_CHAT c buf p api).pos = 0 := by
  have hp0 : p ≠ 0 := by omega
  have hbne : buf ≠ [] := by
    intro h
    rw [h] at hlen
    simp at hlen
  cases hapi : api ((buf.set p 0).take p) with
  | requestFailed e =>
      cases e <;>
        simp [process_chat_keypress, process_chat_input, display_prompt,
          hc, hapi, hp0, hbne, IOLog.app, errW, outW, IOLog.empty]
  | response v cmd =>
      rw [hapi] at hfail
      have hvc : v = false ∨ cmd = none := by
        cases v <;> cases cmd <;> simp [apiFails] at hfail ⊢
      rcases hvc with hv | hcmd
      · subst hv
        simp [process_chat_keypress, process_chat_input, display_prompt,
          hc, hapi, hp0, hbne, IOLog.app, errW, outW, IOLog.empty]
      · subst hcmd
        simp [process_chat_keypress, process_chat_input, display_prompt,
          hc, hapi, hp0, hbne, IOLog.app, errW, outW, IOLog.empty]

/-- Witness for failed_translation_flush: flushing the one-byte line "l"
against the always-failing collaborator. -/
theorem failed_translation_flush_witness :
    (process_chat_keypress InputMode.MODE_CHAT 13 [108, 0] 1
        apiNone).log.toChild = [] ∧
    (process_chat_keypress InputMode.MODE_CHAT 13 [108, 0] 1
        apiNone).log.toStderr ≠ [] ∧
    (process_chat_keypress InputMode.MODE_CHAT 13 [108, 0] 1
        apiNone).mode = InputMode.MODE_CHAT ∧
    (process_chat_keypress InputMode.MODE_CHAT 13 [108, 0] 1
        apiNone).pos = 0 :=
  failed_translation_flush apiNone [108, 0] 1 13 (by decide) (by decide)
    (Or.inl rfl) (by decide)

/-- C9: whenever the session enters or re-enters PassThrough mode and the
PassThrough prompt is displayed, display_prompt writes exactly one
additional newline byte to the child's input channel: directly (the
MODE_BASH branch writes [10] to the child while the MODE_CHAT branch writes
nothing there), after a toggle out of Assisted mode (the only child-channel
write of that step is the single prompt newline), and after a successful
translation flush (the child receives the command and its newline from the
routing rules plus exactly one further newline from the prompt display). -/
theorem prompt_newline_on_passthrough_entry (api : List Nat → ApiOutcome) :
    (display_prompt InputMode.MODE_BASH).toChild = [10] ∧
    (display_prompt InputMode.MODE_CHAT).toChild = [] ∧
    (∀ (buf : List Nat) (p : Nat),
      (stdinStep api ⟨InputMode.MODE_CHAT, buf, p⟩ 9).1.mode =
        InputMode.MODE_BASH ∧
      (stdinStep api ⟨InputMode.MODE_CHAT, buf, p⟩ 9).2.toChild = [10]) ∧
    (∀ (buf : List Nat) (p c : Nat) (cmd : List Nat), (c = 13 ∨ c = 10) →
      api ((buf.set p 0).take p) = ApiOutcome.response true (some cmd) →
      ((buf.set p 0).take p).length ≠ 0 →
      (process_chat_keypress InputMode.MODE_CHAT c buf p api).log.toChild =
        (cmd ++ [10]) ++ [10] ∧
      (process_chat_keypress InputMode.MODE_CHAT c buf p api).mode =
        InputMode.MODE_BASH) := by
  refine ⟨rfl, rfl, ?_, ?_⟩
  · intro buf p
    constructor <;>
      simp [stdinStep, terminal_process_key, InputMode.flip, display_prompt,
        IOLog.app, outW, childW, clearLineBytes]
  · intro buf p c cmd hc hapi hlen0
    rw [List.length_take, List.length_set] at hlen0
    have hp0 : p ≠ 0 := by omega
    have hb0 : buf.length ≠ 0 := by omega
    have hbne : buf ≠ [] := by simpa [List.length_eq_zero] using hb0
    constructor <;>
      simp [process_chat_keypress, process_chat_input, display_prompt,
        hc, hapi, hp0, hbne, IOLog.app, childW, outW, clearLineBytes]

/-- Witness for prompt_newline_on_passthrough_entry: the toggle out of
Assisted mode and the successful "list files" flush both end with the
single prompt newline on the child channel. -/
theorem prompt_newline_on_passthrough_entry_witness :
    (stdinStep apiNone ⟨InputMode.MODE_CHAT, [], 5⟩ 9).2.toChild = [10] ∧
    (process_chat_keypress InputMode.MODE_CHAT 13 (listFilesBytes ++ [0]) 10
        apiListFiles).log.toChild = (lsDashLaBytes ++ [10]) ++ [10] :=
  ⟨((prompt_newline_on_passthrough_entry apiNone).2.2.1 [] 5).2,
   ((prompt_newline_on_passthrough_entry apiListFiles).2.2.2
      (listFilesBytes ++ [0]) 10 13 lsDashLaBytes (Or.inl rfl) (by decide)
      (by decide)).1⟩

theorem childProbe_term (st : LoopState) (log : IOLog) (ev : ChildEv) :
    (childProbe st log ev).state.term = st.term := by
  cases ev <;> rfl

theorem bashSide_term (st : LoopState) (log : IOLog) (bout : BashEv)
    (child : ChildEv) :
    (bashSide st log bout child).state.term = st.term := by
  cases bout <;> cases child <;>
    simp only [bashSide, childProbe] <;>
    first
      | (simp [StepOut.state]; done)
      | (split <;> simp [StepOut.state])

theorem iterateLoop_term_fields (api : List Nat → ApiOutcome)
    (st : LoopState) (e : IterEvent) :
    (iterateLoop api st e).state.term.raw_mode_enabled =
      st.term.raw_mode_enabled ∧
    (iterateLoop api st e).state.term.original_termios =
      st.term.original_termios := by
  cases e with
  | eintr sig =>
      cases sig <;> by_cases hr : st.running <;>
        simp [iterateLoop, StepOut.state, hr]
  | selectErr => exact ⟨rfl, rfl⟩
  | ioReady sin bout child =>
      cases sin with
      | quiet => constructor <;> simp [iterateLoop, bashSide_term]
      | eagain => constructor <;> simp [iterateLoop, bashSide_term]
      | readErr => exact ⟨rfl, rfl⟩
      | byte c =>
          simp only [iterateLoop]
          split
          · exact ⟨rfl, rfl⟩
          · constructor <;> simp [bashSide_term]

theorem loopRun_succ_nil (api : List Nat → ApiOutcome) (fuel : Nat)
    (st : LoopState) (log : IOLog) :
    loopRun api (fuel + 1) st [] log =
      if st.running = false then some (st, log) else none := by
  rfl

theorem loopRun_succ_cons (api : List Nat → ApiOutcome) (fuel : Nat)
    (st : LoopState) (e : IterEvent) (rest : List IterEvent) (log : IOLog) :
    loopRun api (fuel + 1) st (e :: rest) log =
      if st.running = false then some (st, log)
      else
        match iterateLoop api st e with
        | .brk st1 l1 => some (st1, IOLog.app log l1)
        | .cont st1 l1 => loopRun api fuel st1 rest (IOLog.app log l1) := by
  rfl

theorem loopRun_term_fields (api : List Nat → ApiOutcome) (fuel : Nat) :
    ∀ (st : LoopState) (evs : List IterEvent) (log : IOLog)
      (st1 : LoopState) (log1 : IOLog),
      loopRun api fuel st evs log = some (st1, log1) →
      st1.term.raw_mode_enabled = st.term.raw_mode_enabled ∧
      st1.term.original_termios = st.term.original_termios := by
  induction fuel with
  | zero =>
      intro st evs log st1 log1 h
      simp [loopRun] at h
  | succ fuel ih =>
      intro st evs log st1 log1 h
      cases evs with
      | nil =>
          rw [loopRun_succ_nil] at h
          by_cases hr : st.running = false
          · rw [if_pos hr] at h
            simp only [Option.some.injEq, Prod.mk.injEq] at h
            rw [← h.1]
            exact ⟨rfl, rfl⟩
          · rw [if_neg hr] at h
            simp at h
      | cons e rest =>
          rw [loopRun_succ_cons] at h
          by_cases hr : st.running = false
          · rw [if_pos hr] at h
            simp only [Option.some.injEq, Prod.mk.injEq] at h
            rw [← h.1]
            exact ⟨rfl, rfl⟩
          · rw [if_neg hr] at h
            have hfields := iterateLoop_term_fields api st e
            cases hi : iterateLoop api st e with
            | brk s2 l2 =>
                rw [hi] at h hfields
                simp only [Option.some.injEq, Prod.mk.injEq] at h
                rw [← h.1]
                exact hfields
            | cont s2 l2 =>
                rw [hi] at h hfields
                simp only at h
                have h2 := ih s2 rest (IOLog.app log l2) st1 log1 h
                exact ⟨h2.1.trans hfields.1, h2.2.trans hfields.2⟩

/-- C1: on every exit path of the event loop — child EOF, non-blocking wait
reporting the exit, a termination signal clearing the running flag, or a
fatal I/O error breaking out — aish_run performs the raw-mode restoration
exactly once: the single post-loop terminal_disable_raw_mode call finds the
flag still set (the loop body never restores), restores the configuration
captured before the loop byte-for-byte, and clears the flag so no second
restoration can happen. -/
theorem raw_mode_restored_once (api : List Nat → ApiOutcome)
    (term : TerminalState) (tty : Termios) (fuel : Nat)
    (evs : List IterEvent) (r : RunResult)
    (h : aish_run api term tty true true fuel evs = some r) :
    r.restores = 1 ∧ r.term.raw_mode_enabled = false ∧ r.tty = tty := by
  have h2 : (match loopRun api fuel
        ⟨⟨tty, true, term.current_mode⟩,
          List.replicate INPUT_BUFFER_SIZE 0, 0, true⟩ evs welcomeLog with
      | none => (none : Option RunResult)
      | some (st1, log1) =>
          some ⟨EXIT_SUCCESS, true,
            if st1.term.raw_mode_enabled then 1 else 0,
            (terminal_disable_raw_mode st1.term (makeRaw tty) true).1,
            (terminal_disable_raw_mode st1.term (makeRaw tty) true).2,
            log1⟩) = some r := h
  cases hl : loopRun api fuel
      ⟨⟨tty, true, term.current_mode⟩,
        List.replicate INPUT_BUFFER_SIZE 0, 0, true⟩ evs welcomeLog with
  | none => rw [hl] at h2; simp at h2
  | some p =>
      obtain ⟨st1, log1⟩ := p
      rw [hl] at h2
      have hfields := loopRun_term_fields api fuel _ evs welcomeLog st1 log1 hl
      simp only at hfields
      obtain ⟨hraw, horig⟩ := hfields
      simp only [Option.some.injEq] at h2
      rw [← h2]
      refine ⟨by simp [hraw], ?_, ?_⟩
      · simp [terminal_disable_raw_mode, hraw]
      · simp [terminal_disable_raw_mode, hraw, horig]

/-- Witness for raw_mode_restored_once: a run whose loop ends by child EOF
restores the terminal exactly once. -/
theorem raw_mode_restored_once_witness :
    ((aish_run apiNone term0 tty0 true true 3
        [IterEvent.ioReady StdinEv.quiet BashEv.eof ChildEv.alive]).getD
      rDefault).restores = 1 ∧
    ((aish_run apiNone term0 tty0 true true 3
        [IterEvent.ioReady StdinEv.quiet BashEv.eof ChildEv.alive]).getD
      rDefault).tty = tty0 := by
  have h := raw_mode_restored_once apiNone term0 tty0 3
    [IterEvent.ioReady StdinEv.quiet BashEv.eof ChildEv.alive]
    ((aish_run apiNone term0 tty0 true true 3
        [IterEvent.ioReady StdinEv.quiet BashEv.eof ChildEv.alive]).getD
      rDefault) (by decide)
  exact ⟨h.1, h.2.2⟩

/-- C10: once the loop has been entered (terminal raw mode was enabled),
aish_run returns EXIT_SUCCESS on every loop termination path, including
the fatal in-loop I/O error paths. -/
theorem run_returns_success (api : List Nat → ApiOutcome)
    (term : TerminalState) (tty : Termios) (fuel : Nat)
    (evs : List IterEvent) (r : RunResult)
    (h : aish_run api term tty true true fuel evs = some r) :
    r.exitCode = EXIT_SUCCESS := by
  have h2 : (match loopRun api fuel
        ⟨⟨tty, true, term.current_mode⟩,
          List.replicate INPUT_BUFFER_SIZE 0, 0, true⟩ evs welcomeLog with
      | none => (none : Option RunResult)
      | some (st1, log1) =>
          some ⟨EXIT_SUCCESS, true,
            if st1.term.raw_mode_enabled then 1 else 0,
            (terminal_disable_raw_mode st1.term (makeRaw tty) true).1,
            (terminal_disable_raw_mode st1.term (makeRaw tty) true).2,
            log1⟩) = some r := h
  cases hl : loopRun api fuel
      ⟨⟨tty, true, term.current_mode⟩,
        List.replicate INPUT_BUFFER_SIZE 0, 0, true⟩ evs welcomeLog with
  | none => rw [hl] at h2; simp at h2
  | some p =>
      obtain ⟨st1, log1⟩ := p
      rw [hl] at h2
      simp only [Option.some.injEq] at h2
      rw [← h2]

/-- Witness for run_returns_success: a run whose loop is aborted by a fatal
select() error still returns EXIT_SUCCESS. -/
theorem run_returns_success_witness :
    ((aish_run apiNone term0 tty0 true true 1 [IterEvent.selectErr]).getD
      rDefault).exitCode = EXIT_SUCCESS :=
  run_returns_success apiNone term0 tty0 1 [IterEvent.selectErr]
    ((aish_run apiNone term0 tty0 true true 1 [IterEvent.selectErr]).getD
      rDefault) (by decide)

end Aish
